import Mathlib

/-! # GPUI shader interface (`crates/gpui/src/platform/mac/shaders/shaders.h`)

A shallow embedding of the C header shared between the host renderer and the
shaders: the three records (`GPUIUniforms`, `GPUIQuad`, `GPUISprite`), the three
binding-slot enumerations, and the C layout rule that places their fields.

Each record is embedded twice, from the same declaration:
* as a list of field declarations (`*_layout`), on which field order, sizes,
  offsets and padding are computed;
* as a structure of values, on which the per-frame behaviour is stated.

A 32-bit float field is represented by the rational number it denotes (every
finite float is a rational); an unsigned 8-bit field by a `Fin 256`.
-/

namespace GPUI

/-! ## Field types -/

/-- The scalar element types that occur in the header. -/
inductive Scalar
  | f32
  | u8
deriving DecidableEq, Repr

/-- Width of a scalar in bits. -/
def Scalar.bits : Scalar → Nat
  | .f32 => 32
  | .u8 => 8

/-- Width of a scalar in bytes. -/
def Scalar.bytes (s : Scalar) : Nat := s.bits / 8

/-- Whether the scalar is an unsigned integer (as opposed to a float). -/
def Scalar.isUnsigned : Scalar → Bool
  | .f32 => false
  | .u8 => true

/-- Largest value of an unsigned scalar of the given width. -/
def Scalar.maxUnsigned (s : Scalar) : Nat := 2 ^ s.bits - 1

/-- The C types of the fields declared in `shaders.h`. -/
inductive CType
  | float
  | uint8_t
  | vector_float2
  | vector_uchar4
deriving DecidableEq, Repr

/-- Modelled from the spec: the element type and lane names of the field types,
which `shaders.h` takes from `<simd/simd.h>` (not part of the sources): a float
pair is two 32-bit floats, a colour is four unsigned 8-bit channels. A scalar
field has one unnamed lane. -/
def CType.lanes : CType → List (String × Scalar)
  | .float => [("", .f32)]
  | .uint8_t => [("", .u8)]
  | .vector_float2 => [(".x", .f32), (".y", .f32)]
  | .vector_uchar4 => [(".x", .u8), (".y", .u8), (".z", .u8), (".w", .u8)]

/-- Modelled from the spec: size in bytes of each field type (`<simd/simd.h>` is
not part of the sources): float pair 8, colour 4, float 4, 1-byte flag 1. -/
def CType.size : CType → Nat
  | .float => 4
  | .uint8_t => 1
  | .vector_float2 => 8
  | .vector_uchar4 => 4

/-- Modelled from the spec: natural alignment in bytes of each field type
(`<simd/simd.h>` is not part of the sources): float pair 8, colour 4, float 4,
1-byte flag 1. -/
def CType.align : CType → Nat
  | .float => 4
  | .uint8_t => 1
  | .vector_float2 => 8
  | .vector_uchar4 => 4

/-- One field declaration of a record: its name and its C type. -/
structure Field where
  name : String
  type : CType
deriving DecidableEq, Repr

/-! ## The records, as declared -/

/-- Field declarations of `GPUIUniforms` (shaders.h, lines 3-11). -/
def GPUIUniforms_layout : List Field :=
  [ ⟨"viewport_size", .vector_float2⟩,
    ⟨"scale", .float⟩,
    ⟨"rotate_x", .float⟩,
    ⟨"rotate_y", .float⟩,
    ⟨"rotate_z", .float⟩,
    ⟨"fov", .float⟩,
    ⟨"opacity", .float⟩ ]

/-- Field declarations of `GPUIQuad` (shaders.h, lines 19-30). -/
def GPUIQuad_layout : List Field :=
  [ ⟨"origin", .vector_float2⟩,
    ⟨"size", .vector_float2⟩,
    ⟨"background_color", .vector_uchar4⟩,
    ⟨"border_top", .float⟩,
    ⟨"border_right", .float⟩,
    ⟨"border_bottom", .float⟩,
    ⟨"border_left", .float⟩,
    ⟨"border_color", .vector_uchar4⟩,
    ⟨"corner_radius", .float⟩,
    ⟨"z", .float⟩ ]

/-- Field declarations of `GPUISprite` (shaders.h, lines 43-51). -/
def GPUISprite_layout : List Field :=
  [ ⟨"origin", .vector_float2⟩,
    ⟨"target_size", .vector_float2⟩,
    ⟨"source_size", .vector_float2⟩,
    ⟨"atlas_origin", .vector_float2⟩,
    ⟨"color", .vector_uchar4⟩,
    ⟨"compute_winding", .uint8_t⟩,
    ⟨"z", .float⟩ ]

/-! ## C record layout -/

/-- Round `off` up to the next multiple of `a`. -/
def alignUp (off a : Nat) : Nat := (off + a - 1) / a * a

/-- Place the fields in declaration order starting at byte `off`, each at the
next offset that is a multiple of its alignment. -/
def placeFrom : Nat → List Field → List (Field × Nat)
  | _, [] => []
  | off, f :: fs =>
    let o := alignUp off f.type.align
    (f, o) :: placeFrom (o + f.type.size) fs

/-- Byte offset of every field of a record. -/
def fieldOffsets (fs : List Field) : List (Field × Nat) := placeFrom 0 fs

/-- First byte after the last field. -/
def endOffset (fs : List Field) : Nat :=
  ((fieldOffsets fs).map (fun p => p.2 + p.1.type.size)).foldl max 0

/-- Alignment of a record: the largest alignment among its fields. -/
def structAlign (fs : List Field) : Nat :=
  (fs.map (fun f => f.type.align)).foldl max 1

/-- Size of a record: the end of its last field rounded up to its alignment. -/
def structSize (fs : List Field) : Nat := alignUp (endOffset fs) (structAlign fs)

/-- Sum of the sizes of the fields of a record. -/
def fieldBytes (fs : List Field) : Nat := (fs.map (fun f => f.type.size)).sum

/-- Padding bytes in front of each field, in declaration order. -/
def paddingBefore : Nat → List (Field × Nat) → List (String × Nat)
  | _, [] => []
  | prevEnd, (f, o) :: rest => (f.name, o - prevEnd) :: paddingBefore (o + f.type.size) rest

/-- Padding bytes after the last field. -/
def trailingPadding (fs : List Field) : Nat := structSize fs - endOffset fs

/-- Scalars of one placed field: name, element type, byte offset of each lane. -/
def laneOffsets (f : Field) (o : Nat) : List (String × Scalar × Nat) :=
  (f.type.lanes.enum).map (fun p => (f.name ++ p.2.1, p.2.2, o + p.1 * p.2.2.bytes))

/-- Every scalar of a record with its byte offset, in memory order. -/
def scalarOffsets (fs : List Field) : List (String × Scalar × Nat) :=
  ((fieldOffsets fs).map (fun p => laneOffsets p.1 p.2)).flatten

/-! ## Binding slots -/

/-- Buffer indices of the quad stage (shaders.h, lines 13-17). -/
inductive GPUIQuadInputIndex
  | GPUIQuadInputIndexVertices
  | GPUIQuadInputIndexQuads
  | GPUIQuadInputIndexUniforms
deriving DecidableEq, Repr

/-- Buffer indices of the sprite vertex stage (shaders.h, lines 32-37). -/
inductive GPUISpriteVertexInputIndex
  | GPUISpriteVertexInputIndexVertices
  | GPUISpriteVertexInputIndexSprites
  | GPUISpriteVertexInputIndexUniforms
  | GPUISpriteVertexInputIndexAtlasSize
deriving DecidableEq, Repr

/-- Texture indices of the sprite fragment stage (shaders.h, lines 39-41). -/
inductive GPUISpriteFragmentInputIndex
  | GPUISpriteFragmentInputIndexAtlas
deriving DecidableEq, Repr

open GPUIQuadInputIndex GPUISpriteVertexInputIndex GPUISpriteFragmentInputIndex

/-- Enumerator value of each quad-stage input. -/
def GPUIQuadInputIndex.slot : GPUIQuadInputIndex → Nat
  | GPUIQuadInputIndexVertices => 0
  | GPUIQuadInputIndexQuads => 1
  | GPUIQuadInputIndexUniforms => 2

/-- Enumerator value of each sprite-vertex-stage input. -/
def GPUISpriteVertexInputIndex.slot : GPUISpriteVertexInputIndex → Nat
  | GPUISpriteVertexInputIndexVertices => 0
  | GPUISpriteVertexInputIndexSprites => 1
  | GPUISpriteVertexInputIndexUniforms => 2
  | GPUISpriteVertexInputIndexAtlasSize => 3

/-- Enumerator value of each sprite-fragment-stage input. -/
def GPUISpriteFragmentInputIndex.slot : GPUISpriteFragmentInputIndex → Nat
  | GPUISpriteFragmentInputIndexAtlas => 0

/-- What an input of a stage carries. -/
inductive InputPurpose
  | vertexData
  | instanceData
  | sharedUniforms
  | atlasSize
deriving DecidableEq, Repr

/-- Purpose of each quad-stage input, read off the enumerator's name. -/
def GPUIQuadInputIndex.purpose : GPUIQuadInputIndex → InputPurpose
  | GPUIQuadInputIndexVertices => .vertexData
  | GPUIQuadInputIndexQuads => .instanceData
  | GPUIQuadInputIndexUniforms => .sharedUniforms

/-- Purpose of each sprite-vertex-stage input, read off the enumerator's name. -/
def GPUISpriteVertexInputIndex.purpose : GPUISpriteVertexInputIndex → InputPurpose
  | GPUISpriteVertexInputIndexVertices => .vertexData
  | GPUISpriteVertexInputIndexSprites => .instanceData
  | GPUISpriteVertexInputIndexUniforms => .sharedUniforms
  | GPUISpriteVertexInputIndexAtlasSize => .atlasSize

/-! ## The records, as values -/

/-- A pair of 32-bit floats (`vector_float2`). -/
structure vector_float2 where
  x : ℚ
  y : ℚ
deriving DecidableEq

/-- Four unsigned 8-bit channels (`vector_uchar4`). -/
structure vector_uchar4 where
  x : Fin 256
  y : Fin 256
  z : Fin 256
  w : Fin 256
deriving DecidableEq

/-- Per-frame uniforms (shaders.h, lines 3-11). -/
structure GPUIUniforms where
  viewport_size : vector_float2
  scale : ℚ
  rotate_x : ℚ
  rotate_y : ℚ
  rotate_z : ℚ
  fov : ℚ
  opacity : ℚ
deriving DecidableEq

/-- One quad instance (shaders.h, lines 19-30). -/
structure GPUIQuad where
  origin : vector_float2
  size : vector_float2
  background_color : vector_uchar4
  border_top : ℚ
  border_right : ℚ
  border_bottom : ℚ
  border_left : ℚ
  border_color : vector_uchar4
  corner_radius : ℚ
  z : ℚ
deriving DecidableEq

/-- One sprite instance (shaders.h, lines 43-51). -/
structure GPUISprite where
  origin : vector_float2
  target_size : vector_float2
  source_size : vector_float2
  atlas_origin : vector_float2
  color : vector_uchar4
  compute_winding : Fin 256
  z : ℚ
deriving DecidableEq

/-- The four channel values of a colour. -/
def vector_uchar4.channels (c : vector_uchar4) : List Nat := [c.x.val, c.y.val, c.z.val, c.w.val]

/-- Every colour channel value stored in a quad: background first, then border. -/
def GPUIQuad.colorChannels (q : GPUIQuad) : List Nat :=
  q.background_color.channels ++ q.border_color.channels

/-- Name, number of lanes, lane width in bits and signedness of each declared
field, in declaration order. -/
def describe (fs : List Field) : List (String × List (Nat × Bool)) :=
  fs.map (fun f => (f.name, f.type.lanes.map (fun l => (l.2.bits, l.2.isUnsigned))))

/-- Shape of a float field: one 32-bit float lane. -/
def shapeFloat : List (Nat × Bool) := [(32, false)]

/-- Shape of a float pair: two 32-bit float lanes. -/
def shapeFloat2 : List (Nat × Bool) := [(32, false), (32, false)]

/-- Shape of a colour: four unsigned 8-bit lanes. -/
def shapeUchar4 : List (Nat × Bool) := [(8, true), (8, true), (8, true), (8, true)]

/-- Shape of a one-byte flag: one unsigned 8-bit lane. -/
def shapeByte : List (Nat × Bool) := [(8, true)]

/-! ## Data-model invariant of the uniforms -/

/-- The invariant the data model states for frame uniforms: positive scale,
opacity between 0 and 1, positive viewport width and height. -/
def GPUIUniforms.Invariant (u : GPUIUniforms) : Prop :=
  0 < u.scale ∧ (0 ≤ u.opacity ∧ u.opacity ≤ 1) ∧
    (0 < u.viewport_size.x ∧ 0 < u.viewport_size.y)

instance (u : GPUIUniforms) : Decidable u.Invariant := by
  unfold GPUIUniforms.Invariant
  infer_instance

/-! ## Frame assembler -/

/-- A primitive of the frame: a quad or a sprite. -/
inductive Primitive
  | quad (q : GPUIQuad)
  | sprite (s : GPUISprite)
deriving DecidableEq

/-- Depth of a primitive: the `z` field of its record. -/
def Primitive.z : Primitive → ℚ
  | .quad q => q.z
  | .sprite s => s.z

/-- The quad carried by a primitive, if it is one. -/
def Primitive.quad? : Primitive → Option GPUIQuad
  | .quad q => some q
  | .sprite _ => none

/-- The sprite carried by a primitive, if it is one. -/
def Primitive.sprite? : Primitive → Option GPUISprite
  | .quad _ => none
  | .sprite s => some s

/-- Modelled from the spec: one step of the frame assembler's depth ordering
(the assembler is not part of the sources). `p` is placed in front of the first
primitive that is not farther than `p`, so that it stays ahead of every
primitive of equal depth already in the sequence. -/
def insertByDepth (p : Primitive) : List Primitive → List Primitive
  | [] => [p]
  | q :: rest => if q.z ≤ p.z then p :: q :: rest else q :: insertByDepth p rest

/-- Modelled from the spec: the frame assembler's depth ordering (the assembler
is not part of the sources): back-to-front, larger `z` first, equal `z` in
original order. -/
def depthSort : List Primitive → List Primitive
  | [] => []
  | p :: ps => insertByDepth p (depthSort ps)

/-- The two input sequences as one sequence of primitives: the quads in their
order, then the sprites in theirs. -/
def primitives (quads : List GPUIQuad) (sprites : List GPUISprite) : List Primitive :=
  quads.map Primitive.quad ++ sprites.map Primitive.sprite

/-- Modelled from the spec: the frame assembler's merge of the quad sequence and
the sprite sequence into a single depth-ordered sequence (the assembler is not
part of the sources). -/
def assemble (quads : List GPUIQuad) (sprites : List GPUISprite) : List Primitive :=
  depthSort (primitives quads sprites)

/-! ## Quad rasterizer: corner radius -/

/-- The largest corner radius a quad of the given size admits. -/
def GPUIQuad.maxCornerRadius (q : GPUIQuad) : ℚ := min q.size.x q.size.y / 2

/-- Modelled from the spec: the corner radius the quad rasterizer uses (the
rasterizer is not part of the sources): `corner_radius`, clamped to half the
smaller side. -/
def GPUIQuad.effectiveCornerRadius (q : GPUIQuad) : ℚ :=
  min q.corner_radius q.maxCornerRadius

/-! ## Sprite compositor: atlas coordinate -/

/-- Modelled from the spec: the sprite compositor's map from a target position
to an atlas coordinate along one axis (the compositor is not part of the
sources): the offset inside the target rectangle, rescaled by
`source_size / target_size`, from `atlas_origin`. -/
def mapAxis (origin target_size source_size atlas_origin pixel : ℚ) : ℚ :=
  atlas_origin + (pixel - origin) * (source_size / target_size)

/-- Modelled from the spec: the atlas coordinate a target pixel maps to (the
compositor is not part of the sources). -/
def GPUISprite.atlasCoord (s : GPUISprite) (pixel : vector_float2) : vector_float2 :=
  { x := mapAxis s.origin.x s.target_size.x s.source_size.x s.atlas_origin.x pixel.x,
    y := mapAxis s.origin.y s.target_size.y s.source_size.y s.atlas_origin.y pixel.y }

/-- Modelled from the spec: the texel sampled along one axis of an atlas that is
`n` texels wide (the compositor is not part of the sources): the texel that
contains the coordinate, clamped to the first and last texel. -/
def clampTexel (n : Nat) (c : ℚ) : Int := max 0 (min (Rat.floor c) ((n : Int) - 1))

/-- Modelled from the spec: the atlas texel the sprite compositor samples for a
target pixel (the compositor is not part of the sources). -/
def GPUISprite.sampleTexel (s : GPUISprite) (atlas_size : Nat × Nat) (pixel : vector_float2) :
    Int × Int :=
  (clampTexel atlas_size.1 (s.atlasCoord pixel).x, clampTexel atlas_size.2 (s.atlasCoord pixel).y)

/-! ## Sample inputs -/

/-- A 100 x 60 quad whose corner radius, 80, exceeds half of its smaller side. -/
def roundedQuad : GPUIQuad :=
  { origin := ⟨0, 0⟩, size := ⟨100, 60⟩, background_color := ⟨255, 255, 255, 255⟩,
    border_top := 0, border_right := 0, border_bottom := 0, border_left := 0,
    border_color := ⟨0, 0, 0, 255⟩, corner_radius := 80, z := 1 }

/-- A sprite drawn at its native size whose source region starts at atlas
texel (90, 0). -/
def edgeSprite : GPUISprite :=
  { origin := ⟨0, 0⟩, target_size := ⟨10, 10⟩, source_size := ⟨10, 10⟩,
    atlas_origin := ⟨90, 0⟩, color := ⟨255, 255, 255, 255⟩, compute_winding := 0, z := 1 }

/-- Uniforms of an 800 x 600 frame at scale 1 and full opacity. -/
def plainUniforms : GPUIUniforms :=
  { viewport_size := ⟨800, 600⟩, scale := 1, rotate_x := 0, rotate_y := 0, rotate_z := 0,
    fov := 0, opacity := 1 }

/-! ## Record contents -/

/-- C1: `GPUIQuad` consists of exactly the fields origin and size (float pairs),
background_color (four unsigned 8-bit channels), border_top, border_right,
border_bottom, border_left (floats), border_color (one colour of four unsigned
8-bit channels), corner_radius and z (floats), in this order and no others; and
every colour channel of a quad ranges over exactly 0..255. -/
theorem GPUIQuad_fields_exact :
    describe GPUIQuad_layout =
      [("origin", shapeFloat2), ("size", shapeFloat2), ("background_color", shapeUchar4),
       ("border_top", shapeFloat), ("border_right", shapeFloat),
       ("border_bottom", shapeFloat), ("border_left", shapeFloat),
       ("border_color", shapeUchar4), ("corner_radius", shapeFloat), ("z", shapeFloat)] ∧
    (∀ f ∈ GPUIQuad_layout, ∀ l ∈ f.type.lanes,
      l.2.isUnsigned = true → l.2.maxUnsigned = 255) ∧
    (∀ q : GPUIQuad, q.colorChannels.length = 8 ∧ ∀ c ∈ q.colorChannels, c ≤ 255) ∧
    (∀ n : Nat, n ≤ 255 → ∃ q : GPUIQuad, ∀ c ∈ q.colorChannels, c = n) := by
  refine ⟨by decide, by decide, ?_, ?_⟩
  · intro q
    refine ⟨rfl, ?_⟩
    intro c hc
    simp only [GPUIQuad.colorChannels, vector_uchar4.channels, List.cons_append,
      List.nil_append, List.mem_cons, List.mem_singleton, List.not_mem_nil, or_false] at hc
    rcases hc with h | h | h | h | h | h | h | h <;> subst h <;> omega
  · intro n hn
    have hlt : n < 256 := by omega
    let c : vector_uchar4 := ⟨⟨n, hlt⟩, ⟨n, hlt⟩, ⟨n, hlt⟩, ⟨n, hlt⟩⟩
    refine ⟨⟨⟨0, 0⟩, ⟨0, 0⟩, c, 0, 0, 0, 0, c, 0, 0⟩, ?_⟩
    intro k hk
    simp only [GPUIQuad.colorChannels, vector_uchar4.channels, List.cons_append,
      List.nil_append, List.mem_cons, List.mem_singleton, List.not_mem_nil, or_false, c] at hk
    rcases hk with h | h | h | h | h | h | h | h <;> exact h

/-- C2: `GPUISprite` consists of exactly the fields origin, target_size,
source_size, atlas_origin (float pairs), color (four unsigned 8-bit channels),
compute_winding (an unsigned flag exactly one byte wide) and z (a float), in
this order and no others. -/
theorem GPUISprite_fields_exact :
    describe GPUISprite_layout =
      [("origin", shapeFloat2), ("target_size", shapeFloat2), ("source_size", shapeFloat2),
       ("atlas_origin", shapeFloat2), ("color", shapeUchar4), ("compute_winding", shapeByte),
       ("z", shapeFloat)] ∧
    (GPUISprite_layout.filter (fun f => f.name == "compute_winding")).map
      (fun f => f.type.size) = [1] := by
  refine ⟨by decide, by decide⟩

/-- C3: `GPUIUniforms` consists of exactly eight 32-bit float scalars, in the
order viewport width, viewport height, scale, rotate_x, rotate_y, rotate_z, fov,
opacity, at byte offsets 0, 4, 8, 12, 16, 20, 24 and 28, and its size is 32
bytes. -/
theorem GPUIUniforms_scalars_and_offsets :
    scalarOffsets GPUIUniforms_layout =
      [("viewport_size.x", .f32, 0), ("viewport_size.y", .f32, 4), ("scale", .f32, 8),
       ("rotate_x", .f32, 12), ("rotate_y", .f32, 16), ("rotate_z", .f32, 20),
       ("fov", .f32, 24), ("opacity", .f32, 28)] ∧
    (scalarOffsets GPUIUniforms_layout).length = 8 ∧
    Scalar.f32.bits = 32 ∧
    structSize GPUIUniforms_layout = 32 := by
  refine ⟨by decide, by decide, by decide, by decide⟩

/-! ## Padding -/

/-- C4, as stated, fails for `GPUISprite`: under the natural-alignment layout
the record is 48 bytes while its fields add up to 41. -/
theorem GPUISprite_not_tightly_packed :
    ¬ (∀ r ∈ [GPUIUniforms_layout, GPUIQuad_layout, GPUISprite_layout],
        structSize r = fieldBytes r) := by
  decide

/-- C4, amended: under the natural-alignment layout `GPUIUniforms` (32 bytes) and
`GPUIQuad` (48 bytes) have no padding, their size being the sum of their field
sizes; `GPUISprite` is 48 bytes for 41 bytes of fields: 3 padding bytes between
`compute_winding` (offset 36) and `z` (offset 40), and 4 after `z`. -/
theorem records_padding :
    (structSize GPUIUniforms_layout = 32 ∧ fieldBytes GPUIUniforms_layout = 32 ∧
      (∀ p ∈ paddingBefore 0 (fieldOffsets GPUIUniforms_layout), p.2 = 0) ∧
      trailingPadding GPUIUniforms_layout = 0) ∧
    (structSize GPUIQuad_layout = 48 ∧ fieldBytes GPUIQuad_layout = 48 ∧
      (∀ p ∈ paddingBefore 0 (fieldOffsets GPUIQuad_layout), p.2 = 0) ∧
      trailingPadding GPUIQuad_layout = 0) ∧
    (structSize GPUISprite_layout = 48 ∧ fieldBytes GPUISprite_layout = 41 ∧
      (fieldOffsets GPUISprite_layout).map (fun p => (p.1.name, p.2)) =
        [("origin", 0), ("target_size", 8), ("source_size", 16), ("atlas_origin", 24),
         ("color", 32), ("compute_winding", 36), ("z", 40)] ∧
      paddingBefore 0 (fieldOffsets GPUISprite_layout) =
        [("origin", 0), ("target_size", 0), ("source_size", 0), ("atlas_origin", 0),
         ("color", 0), ("compute_winding", 0), ("z", 3)] ∧
      trailingPadding GPUISprite_layout = 4) := by
  refine ⟨by decide, by decide, by decide⟩

/-! ## Binding slots -/

/-- C9: in each of the three binding-slot enumerations the map from named input
to slot number is injective and its image is exactly 0..n-1, with n = 3 for the
quad stage, 4 for the sprite vertex stage and 1 for the sprite fragment stage. -/
theorem slots_injective_contiguous :
    (Function.Injective GPUIQuadInputIndex.slot ∧
      ∀ n : Nat, (∃ i : GPUIQuadInputIndex, i.slot = n) ↔ n < 3) ∧
    (Function.Injective GPUISpriteVertexInputIndex.slot ∧
      ∀ n : Nat, (∃ i : GPUISpriteVertexInputIndex, i.slot = n) ↔ n < 4) ∧
    (Function.Injective GPUISpriteFragmentInputIndex.slot ∧
      ∀ n : Nat, (∃ i : GPUISpriteFragmentInputIndex, i.slot = n) ↔ n < 1) := by
  refine ⟨⟨?_, ?_⟩, ⟨?_, ?_⟩, ⟨?_, ?_⟩⟩
  · intro a b h
    cases a <;> cases b <;> simp [GPUIQuadInputIndex.slot] at h ⊢
  · intro n
    constructor
    · rintro ⟨i, rfl⟩
      cases i <;> simp [GPUIQuadInputIndex.slot]
    · intro h
      interval_cases n
      · exact ⟨GPUIQuadInputIndexVertices, rfl⟩
      · exact ⟨GPUIQuadInputIndexQuads, rfl⟩
      · exact ⟨GPUIQuadInputIndexUniforms, rfl⟩
  · intro a b h
    cases a <;> cases b <;> simp [GPUISpriteVertexInputIndex.slot] at h ⊢
  · intro n
    constructor
    · rintro ⟨i, rfl⟩
      cases i <;> simp [GPUISpriteVertexInputIndex.slot]
    · intro h
      interval_cases n
      · exact ⟨GPUISpriteVertexInputIndexVertices, rfl⟩
      · exact ⟨GPUISpriteVertexInputIndexSprites, rfl⟩
      · exact ⟨GPUISpriteVertexInputIndexUniforms, rfl⟩
      · exact ⟨GPUISpriteVertexInputIndexAtlasSize, rfl⟩
  · intro a b _
    cases a
    cases b
    rfl
  · intro n
    constructor
    · rintro ⟨i, rfl⟩
      cases i
      simp [GPUISpriteFragmentInputIndex.slot]
    · intro h
      interval_cases n
      exact ⟨GPUISpriteFragmentInputIndexAtlas, rfl⟩

/-- C10: the quad stage and the sprite vertex stage give every purpose they
share the same slot (vertex data 0, per-instance data 1, shared uniforms 2), and
the sprite vertex stage's only further input, the atlas size, has slot 3, which
no quad-stage input uses. -/
theorem shared_purposes_share_slots :
    (∀ (q : GPUIQuadInputIndex) (s : GPUISpriteVertexInputIndex),
      q.purpose = s.purpose → q.slot = s.slot) ∧
    (GPUIQuadInputIndexVertices.slot = 0 ∧ GPUISpriteVertexInputIndexVertices.slot = 0) ∧
    (GPUIQuadInputIndexQuads.slot = 1 ∧ GPUISpriteVertexInputIndexSprites.slot = 1) ∧
    (GPUIQuadInputIndexUniforms.slot = 2 ∧ GPUISpriteVertexInputIndexUniforms.slot = 2) ∧
    (∀ s : GPUISpriteVertexInputIndex,
      (∃ q : GPUIQuadInputIndex, q.purpose = s.purpose) ∨
        s = GPUISpriteVertexInputIndexAtlasSize) ∧
    (∀ q : GPUIQuadInputIndex,
      q.purpose ≠ GPUISpriteVertexInputIndexAtlasSize.purpose) ∧
    GPUISpriteVertexInputIndexAtlasSize.slot = 3 ∧
    (∀ q : GPUIQuadInputIndex, q.slot ≠ 3) := by
  refine ⟨?_, ⟨rfl, rfl⟩, ⟨rfl, rfl⟩, ⟨rfl, rfl⟩, ?_, ?_, rfl, ?_⟩
  · intro q s h
    cases q <;> cases s <;>
      simp [GPUIQuadInputIndex.purpose, GPUISpriteVertexInputIndex.purpose,
        GPUIQuadInputIndex.slot, GPUISpriteVertexInputIndex.slot] at h ⊢
  · intro s
    cases s
    · exact Or.inl ⟨GPUIQuadInputIndexVertices, rfl⟩
    · exact Or.inl ⟨GPUIQuadInputIndexQuads, rfl⟩
    · exact Or.inl ⟨GPUIQuadInputIndexUniforms, rfl⟩
    · exact Or.inr rfl
  · intro q
    cases q <;> simp [GPUIQuadInputIndex.purpose, GPUISpriteVertexInputIndex.purpose]
  · intro q
    cases q <;> simp [GPUIQuadInputIndex.slot]

/-! ## Depth ordering -/

/-- Depth of a quad primitive. -/
theorem Primitive.z_quad (q : GPUIQuad) : (Primitive.quad q).z = q.z := rfl

/-- Depth of a sprite primitive. -/
theorem Primitive.z_sprite (s : GPUISprite) : (Primitive.sprite s).z = s.z := rfl

/-- Inserting a primitive keeps every primitive: the result is a rearrangement
of the primitive followed by the sequence. -/
theorem insertByDepth_perm (p : Primitive) (l : List Primitive) :
    (insertByDepth p l).Perm (p :: l) := by
  induction l with
  | nil => exact List.Perm.refl _
  | cons q rest ih =>
    simp only [insertByDepth]
    split
    · exact List.Perm.refl _
    · exact (List.Perm.cons q ih).trans (List.Perm.swap p q rest)

/-- The depth ordering rearranges its input. -/
theorem depthSort_perm (l : List Primitive) : (depthSort l).Perm l := by
  induction l with
  | nil => exact List.Perm.refl _
  | cons p ps ih =>
    simp only [depthSort]
    exact (insertByDepth_perm p (depthSort ps)).trans (List.Perm.cons p ih)

/-- Inserting into a back-to-front sequence gives a back-to-front sequence. -/
theorem insertByDepth_sorted (p : Primitive) (l : List Primitive)
    (h : l.Pairwise (fun a b => b.z ≤ a.z)) :
    (insertByDepth p l).Pairwise (fun a b => b.z ≤ a.z) := by
  induction l with
  | nil => simp [insertByDepth]
  | cons q rest ih =>
    obtain ⟨hq, hrest⟩ := List.pairwise_cons.mp h
    simp only [insertByDepth]
    split
    · rename_i hle
      refine List.pairwise_cons.mpr ⟨?_, h⟩
      intro b hb
      rcases List.mem_cons.mp hb with rfl | hb
      · exact hle
      · exact le_trans (hq b hb) hle
    · rename_i hnle
      refine List.pairwise_cons.mpr ⟨?_, ih hrest⟩
      intro b hb
      rcases List.mem_cons.mp ((insertByDepth_perm p rest).mem_iff.mp hb) with rfl | hb
      · exact le_of_lt (lt_of_not_ge hnle)
      · exact hq b hb

/-- The depth ordering is back-to-front. -/
theorem depthSort_sorted (l : List Primitive) :
    (depthSort l).Pairwise (fun a b => b.z ≤ a.z) := by
  induction l with
  | nil => exact List.Pairwise.nil
  | cons p ps ih => exact insertByDepth_sorted p (depthSort ps) ih

/-- Inserting a primitive puts it ahead of the primitives of its own depth and
leaves the order among the others as it was. -/
theorem filter_insertByDepth (d : ℚ) (p : Primitive) (l : List Primitive) :
    (insertByDepth p l).filter (fun a => decide (a.z = d)) =
      (p :: l).filter (fun a => decide (a.z = d)) := by
  induction l with
  | nil => rfl
  | cons q rest ih =>
    simp only [insertByDepth]
    split
    · rfl
    · rename_i hnle
      have hlt : p.z < q.z := lt_of_not_ge hnle
      by_cases hq : q.z = d
      · have hp : ¬ p.z = d := by
          intro hp
          rw [hp, hq] at hlt
          exact lt_irrefl _ hlt
        simp [List.filter_cons, hq, hp, ih]
      · simp [List.filter_cons, hq, ih]

/-- The depth ordering keeps, at every depth, the primitives of that depth in
their input order. -/
theorem filter_depthSort (d : ℚ) (l : List Primitive) :
    (depthSort l).filter (fun a => decide (a.z = d)) = l.filter (fun a => decide (a.z = d)) := by
  induction l with
  | nil => rfl
  | cons p ps ih =>
    simp only [depthSort]
    rw [filter_insertByDepth, List.filter_cons, List.filter_cons, ih]

/-- The quads of a given depth among the merged input are the quads of that
depth of the quad sequence, in order. -/
theorem quads_of_primitives (d : ℚ) (quads : List GPUIQuad) (sprites : List GPUISprite) :
    ((primitives quads sprites).filter (fun a => decide (a.z = d))).filterMap Primitive.quad? =
      quads.filter (fun q => decide (q.z = d)) := by
  have hs : ∀ ss : List GPUISprite,
      ((ss.map Primitive.sprite).filter (fun a => decide (a.z = d))).filterMap
        Primitive.quad? = [] := by
    intro ss
    induction ss with
    | nil => rfl
    | cons s ss ih =>
      by_cases h : s.z = d <;>
        simp [List.filter_cons, Primitive.z_quad, Primitive.z_sprite, Primitive.quad?, h, ih]
  induction quads with
  | nil => simpa [primitives] using hs sprites
  | cons q qs ih =>
    have hcons : primitives (q :: qs) sprites = Primitive.quad q :: primitives qs sprites := rfl
    rw [hcons, List.filter_cons, List.filter_cons, Primitive.z_quad]
    by_cases h : q.z = d
    · simp only [h, decide_True, if_true, List.filterMap_cons, Primitive.quad?]
      rw [ih]
    · simp only [h, decide_False, Bool.false_eq_true, if_false]
      exact ih

/-- The sprites of a given depth among the merged input are the sprites of that
depth of the sprite sequence, in order. -/
theorem sprites_of_primitives (d : ℚ) (quads : List GPUIQuad) (sprites : List GPUISprite) :
    ((primitives quads sprites).filter (fun a => decide (a.z = d))).filterMap
        Primitive.sprite? =
      sprites.filter (fun s => decide (s.z = d)) := by
  have hs : ∀ ss : List GPUISprite,
      ((ss.map Primitive.sprite).filter (fun a => decide (a.z = d))).filterMap
        Primitive.sprite? = ss.filter (fun s => decide (s.z = d)) := by
    intro ss
    induction ss with
    | nil => rfl
    | cons s ss ih =>
      by_cases h : s.z = d <;>
        simp [List.filter_cons, Primitive.z_quad, Primitive.z_sprite, Primitive.sprite?, h, ih]
  induction quads with
  | nil => simpa [primitives] using hs sprites
  | cons q qs ih =>
    have hcons : primitives (q :: qs) sprites = Primitive.quad q :: primitives qs sprites := rfl
    rw [hcons, List.filter_cons, Primitive.z_quad]
    by_cases h : q.z = d
    · simp only [h, decide_True, if_true, List.filterMap_cons, Primitive.sprite?]
      exact ih
    · simp only [h, decide_False, Bool.false_eq_true, if_false]
      exact ih

/-- C5: the frame assembler merges the quad and sprite sequences into one
sequence that is a permutation of the inputs, has non-increasing `z` (larger `z`
first), and keeps primitives of equal `z` in the relative order of the input:
at every depth the output lists the primitives of that depth as the input does,
in particular the quads in quad-sequence order and the sprites in
sprite-sequence order. -/
theorem assemble_stable_back_to_front (quads : List GPUIQuad) (sprites : List GPUISprite) :
    (assemble quads sprites).Perm (primitives quads sprites) ∧
    (assemble quads sprites).Pairwise (fun a b => b.z ≤ a.z) ∧
    (∀ d : ℚ, (assemble quads sprites).filter (fun a => decide (a.z = d)) =
      (primitives quads sprites).filter (fun a => decide (a.z = d))) ∧
    (∀ d : ℚ, ((assemble quads sprites).filter (fun a => decide (a.z = d))).filterMap
        Primitive.quad? = quads.filter (fun q => decide (q.z = d))) ∧
    (∀ d : ℚ, ((assemble quads sprites).filter (fun a => decide (a.z = d))).filterMap
        Primitive.sprite? = sprites.filter (fun s => decide (s.z = d))) := by
  refine ⟨depthSort_perm _, depthSort_sorted _, fun d => filter_depthSort d _, ?_, ?_⟩
  · intro d
    rw [assemble, filter_depthSort]
    exact quads_of_primitives d quads sprites
  · intro d
    rw [assemble, filter_depthSort]
    exact sprites_of_primitives d quads sprites

/-! ## Corner radius -/

/-- C6: for every quad with non-negative size, the corner radius the rasterizer
uses is at most min(width, height)/2 (a bound that is then itself non-negative):
a `corner_radius` above the bound is replaced by the bound, and one within the
bound is used unchanged. -/
theorem effectiveCornerRadius_clamped (q : GPUIQuad) (hw : 0 ≤ q.size.x) (hh : 0 ≤ q.size.y) :
    0 ≤ min q.size.x q.size.y / 2 ∧
    q.effectiveCornerRadius ≤ min q.size.x q.size.y / 2 ∧
    (min q.size.x q.size.y / 2 < q.corner_radius →
      q.effectiveCornerRadius = min q.size.x q.size.y / 2) ∧
    (q.corner_radius ≤ min q.size.x q.size.y / 2 →
      q.effectiveCornerRadius = q.corner_radius) := by
  refine ⟨?_, ?_, ?_, ?_⟩
  · exact div_nonneg (le_min hw hh) (by norm_num)
  · exact min_le_right _ _
  · intro h
    exact min_eq_right (le_of_lt h)
  · intro h
    exact min_eq_left h

/-- C6 at a 100 x 60 quad with corner radius 80: the radius used is 30. -/
theorem effectiveCornerRadius_clamped_witness :
    ((0 : ℚ) ≤ roundedQuad.size.x ∧ (0 : ℚ) ≤ roundedQuad.size.y) ∧
    min roundedQuad.size.x roundedQuad.size.y / 2 < roundedQuad.corner_radius ∧
    roundedQuad.effectiveCornerRadius = 30 := by
  have h := effectiveCornerRadius_clamped roundedQuad (by simp [roundedQuad])
    (by simp [roundedQuad])
  have hlt : min roundedQuad.size.x roundedQuad.size.y / 2 < roundedQuad.corner_radius := by
    norm_num [roundedQuad]
  refine ⟨⟨by simp [roundedQuad], by simp [roundedQuad]⟩, hlt, ?_⟩
  rw [h.2.2.1 hlt]
  norm_num [roundedQuad]

/-! ## Atlas sampling -/

/-- Along one axis of an atlas `n > 0` texels wide, the sampled texel is a texel
of the atlas; it is the texel containing the coordinate when the coordinate is
in `[0, n)`, the first texel when the coordinate is below 0, and the last texel
when the coordinate is `n` or more. -/
theorem clampTexel_spec (n : Nat) (c : ℚ) (hn : 0 < n) :
    (0 ≤ clampTexel n c ∧ clampTexel n c < (n : Int)) ∧
    (0 ≤ c → c < (n : ℚ) → clampTexel n c = Rat.floor c) ∧
    (c < 0 → clampTexel n c = 0) ∧
    ((n : ℚ) ≤ c → clampTexel n c = (n : Int) - 1) := by
  have hge : ∀ k : Int, (k : ℚ) ≤ c → k ≤ Rat.floor c := fun k h => Rat.le_floor.mpr h
  have hlt : ∀ k : Int, c < (k : ℚ) → Rat.floor c < k := by
    intro k h
    by_contra hk
    exact absurd (Rat.le_floor.mp (not_lt.mp hk)) (not_le.mpr h)
  have hn' : (0 : Int) < (n : Int) := by exact_mod_cast hn
  unfold clampTexel
  refine ⟨⟨?_, ?_⟩, ?_, ?_, ?_⟩
  · omega
  · omega
  · intro h0 h1
    have a := hge 0 (by simpa using h0)
    have b := hlt (n : Int) (by simpa using h1)
    omega
  · intro h0
    have a := hlt 0 (by simpa using h0)
    omega
  · intro h1
    have a := hge (n : Int) (by simpa using h1)
    omega

/-- C7: for every sprite and every target pixel, on an atlas with a positive
number of texels on each axis, the sampled atlas texel lies in [0, atlas_size)
on each axis; a mapped coordinate inside that range is sampled at the texel that
contains it, unchanged, and one outside is sampled at the nearest edge texel
(texel 0 below the range, texel atlas_size - 1 above it), not wrapped. -/
theorem sampleTexel_clamped (s : GPUISprite) (atlas_size : Nat × Nat) (pixel : vector_float2)
    (hw : 0 < atlas_size.1) (hh : 0 < atlas_size.2) :
    ((0 ≤ (s.sampleTexel atlas_size pixel).1 ∧
        (s.sampleTexel atlas_size pixel).1 < (atlas_size.1 : Int)) ∧
      (0 ≤ (s.atlasCoord pixel).x → (s.atlasCoord pixel).x < (atlas_size.1 : ℚ) →
        (s.sampleTexel atlas_size pixel).1 = Rat.floor (s.atlasCoord pixel).x) ∧
      ((s.atlasCoord pixel).x < 0 → (s.sampleTexel atlas_size pixel).1 = 0) ∧
      ((atlas_size.1 : ℚ) ≤ (s.atlasCoord pixel).x →
        (s.sampleTexel atlas_size pixel).1 = (atlas_size.1 : Int) - 1)) ∧
    ((0 ≤ (s.sampleTexel atlas_size pixel).2 ∧
        (s.sampleTexel atlas_size pixel).2 < (atlas_size.2 : Int)) ∧
      (0 ≤ (s.atlasCoord pixel).y → (s.atlasCoord pixel).y < (atlas_size.2 : ℚ) →
        (s.sampleTexel atlas_size pixel).2 = Rat.floor (s.atlasCoord pixel).y) ∧
      ((s.atlasCoord pixel).y < 0 → (s.sampleTexel atlas_size pixel).2 = 0) ∧
      ((atlas_size.2 : ℚ) ≤ (s.atlasCoord pixel).y →
        (s.sampleTexel atlas_size pixel).2 = (atlas_size.2 : Int) - 1)) :=
  ⟨clampTexel_spec atlas_size.1 (s.atlasCoord pixel).x hw,
    clampTexel_spec atlas_size.2 (s.atlasCoord pixel).y hh⟩

/-- C7 at a sprite whose pixel (10, 3) maps to atlas coordinate (100, 3), 5
units past the right edge of a 95 x 64 atlas: the sampled texel is (94, 3). -/
theorem sampleTexel_clamped_witness :
    (0 < ((95, 64) : Nat × Nat).1 ∧ 0 < ((95, 64) : Nat × Nat).2) ∧
    (edgeSprite.atlasCoord ⟨10, 3⟩).x = 100 ∧
    (edgeSprite.sampleTexel (95, 64) ⟨10, 3⟩).1 = 94 := by
  have h := sampleTexel_clamped edgeSprite (95, 64) ⟨10, 3⟩ (by decide) (by decide)
  have hx : (edgeSprite.atlasCoord ⟨10, 3⟩).x = 100 := by
    norm_num [GPUISprite.atlasCoord, mapAxis, edgeSprite]
  refine ⟨⟨by decide, by decide⟩, hx, ?_⟩
  have h94 := h.1.2.2.2 (by rw [hx]; norm_num)
  simpa using h94

/-! ## Uniforms invariant -/

/-- C8, as stated, fails: a `GPUIUniforms` value with scale 0 is a value of the
record and violates the invariant. -/
theorem uniforms_invariant_not_universal :
    ¬ (∀ u : GPUIUniforms, u.Invariant) := by
  intro h
  have h0 := (h { plainUniforms with scale := 0 }).1
  simp [plainUniforms] at h0

/-- C8, amended: the record does not constrain its fields. Some `GPUIUniforms`
values satisfy the invariant, and each of its three conditions can fail on its
own: a value with non-positive scale, one with opacity outside [0,1] and one
with a non-positive viewport dimension, each satisfying the other two
conditions. -/
theorem uniforms_invariant_is_a_precondition :
    (∃ u : GPUIUniforms, u.Invariant) ∧
    (∃ u : GPUIUniforms, ¬ 0 < u.scale ∧ (0 ≤ u.opacity ∧ u.opacity ≤ 1) ∧
      (0 < u.viewport_size.x ∧ 0 < u.viewport_size.y) ∧ ¬ u.Invariant) ∧
    (∃ u : GPUIUniforms, 0 < u.scale ∧ ¬ (0 ≤ u.opacity ∧ u.opacity ≤ 1) ∧
      (0 < u.viewport_size.x ∧ 0 < u.viewport_size.y) ∧ ¬ u.Invariant) ∧
    (∃ u : GPUIUniforms, 0 < u.scale ∧ (0 ≤ u.opacity ∧ u.opacity ≤ 1) ∧
      ¬ (0 < u.viewport_size.x ∧ 0 < u.viewport_size.y) ∧ ¬ u.Invariant) := by
  refine ⟨⟨plainUniforms, ?_⟩, ⟨{ plainUniforms with scale := 0 }, ?_⟩,
    ⟨{ plainUniforms with opacity := 2 }, ?_⟩,
    ⟨{ plainUniforms with viewport_size := ⟨0, 600⟩ }, ?_⟩⟩ <;>
    norm_num [GPUIUniforms.Invariant, plainUniforms]

end GPUI
